import Mathlib

/-!
Verification of the whale-tracker ingestion/scoring/backtest core.

The Python source is shallowly embedded: SQLite tables become association
lists keyed by their primary key, floats become rationals (`ℚ`), and each
per-record exception handler becomes a conditional that drops the record.
Definitions follow `src/app/database.py`, `src/app/kalshi.py`,
`src/app/polymarket.py` and `src/app/insider.py`.
-/

namespace WhaleTracker

/-! ### Case-insensitive substring matching (Python `in` on `str.lower()` / `str.upper()`) -/

/-- Boolean prefix test on character lists. -/
def isPrefixOfB : List Char → List Char → Bool
  | [], _ => true
  | _ :: _, [] => false
  | a :: as, b :: bs => a == b && isPrefixOfB as bs

/-- Python's `needle in hay` substring containment on character lists. -/
def containsSub (needle : List Char) : List Char → Bool
  | [] => isPrefixOfB needle []
  | c :: t => isPrefixOfB needle (c :: t) || containsSub needle t

/-- Python's `str.lower()` restricted to the ASCII alphabet used by the keyword lists. -/
def lowerChars (s : String) : List Char := s.data.map Char.toLower

/-- Python's `str.upper()` restricted to the ASCII alphabet used by the keyword lists. -/
def upperChars (s : String) : List Char := s.data.map Char.toUpper

/-- The test `kw in title_lower` for a keyword written as a Lean string literal. -/
def kwIn (kw : String) (hay : List Char) : Bool := containsSub kw.data hay

/-! ### `detect_category` (src/app/kalshi.py, lines 10-40) -/

def sports_keywords : List String :=
  ["winner", "wins by", "total points", "spread", "game", "match", "vs"]

def sports_tickers : List String :=
  ["NBA", "NFL", "MLB", "NHL", "NCAA", "EPL", "MLS", "UFC", "BOXING", "NCAAMB", "NCAAF", "SERIE"]

def crypto_tickers : List String := ["BTC", "ETH", "BITCOIN", "ETHEREUM"]

def indices_keywords : List String := ["s&p", "nasdaq", "dow", "inx"]

def politics_keywords : List String :=
  ["trump", "biden", "government", "election", "congress", "fed chair"]

/-- The check `any(kw in title_lower for kw in sports_keywords)`. -/
def sportsTitleHit (title : String) : Bool :=
  sports_keywords.any (fun kw => kwIn kw (lowerChars title))

/-- The check `any(t in ticker_upper for t in sports_tickers)`. -/
def sportsTickerHit (ticker : String) : Bool :=
  sports_tickers.any (fun t => kwIn t (upperChars ticker))

/-- The check that the upper-cased ticker contains one of the four crypto tokens. -/
def cryptoTickerHit (ticker : String) : Bool :=
  crypto_tickers.any (fun c => kwIn c (upperChars ticker))

/-- The function `detect_category(ticker, title)` with first-match-wins ordering. -/
def detect_category (ticker title : String) : String :=
  if sportsTitleHit title then "sports"
  else if sportsTickerHit ticker then "sports"
  else if cryptoTickerHit ticker then "crypto"
  else if indices_keywords.any (fun i => kwIn i (lowerChars title)) then "indices"
  else if politics_keywords.any (fun p => kwIn p (lowerChars title)) then "politics"
  else "other"

/-! ### Insider sub-scores (src/app/insider.py) -/

def EVENT_KEYWORDS : List String :=
  ["fda", "approval", "court", "ruling", "verdict", "trial", "judge",
   "sec", "ftc", "doj", "indictment", "settlement", "lawsuit",
   "announce", "resign", "nomination", "confirm", "veto", "executive order",
   "pardon", "impeach", "electoral", "delegate",
   "earnings", "merger", "acquisition", "ipo", "bankruptcy",
   "deadline", "vote", "decision", "result", "winner", "before"]

/-- The function `calculate_size_score(usd_value, threshold)` (src/app/insider.py, lines 31-46). -/
def calculate_size_score (usd_value threshold : ℚ) : ℚ :=
  let r := usd_value / threshold
  if r ≤ 1 then 0
  else if r ≤ 2 then 0.3
  else if r ≤ 5 then 0.3 + (r - 2) * 0.167
  else if r ≤ 10 then 0.8 + (r - 5) * 0.04
  else 1

/-- The membership test of the lowercased side string in the pair (yes, buy). -/
def sideIsYes (side : String) : Bool :=
  lowerChars side == "yes".data || lowerChars side == "buy".data

/-- The function `calculate_contrarian_score(price, side, platform)` (src/app/insider.py, lines 49-84). -/
def calculate_contrarian_score (price : ℚ) (side platform : String) : ℚ :=
  let prob : ℚ :=
    if platform == "kalshi" then price / 100
    else if price ≤ 1 then price else price / 100
  if sideIsYes side then
    if prob ≤ 0.15 then 1
    else if prob ≤ 0.25 then 0.7
    else if prob ≤ 0.35 then 0.4
    else 0
  else
    if prob ≥ 0.85 then 1
    else if prob ≥ 0.75 then 0.7
    else if prob ≥ 0.65 then 0.4
    else 0

/-- The function `calculate_event_score(market_title)` (src/app/insider.py, lines 87-105);
the empty title is Python-falsy and short-circuits to 0. -/
def calculate_event_score (market_title : String) : ℚ :=
  if market_title == "" then 0
  else
    let nMatches := (EVENT_KEYWORDS.filter (fun kw => kwIn kw (lowerChars market_title))).length
    if nMatches ≥ 3 then 1
    else if nMatches == 2 then 0.7
    else if nMatches == 1 then 0.4
    else 0

/-- The function `calculate_liquidity_score(volume_24h, platform)` (src/app/insider.py, lines 108-132). -/
def calculate_liquidity_score (volume_24h : ℚ) (platform : String) : ℚ :=
  if platform == "kalshi" then
    if volume_24h ≤ 1000 then 1
    else if volume_24h ≤ 5000 then 0.7
    else if volume_24h ≤ 20000 then 0.4
    else 0.1
  else
    if volume_24h ≤ 10000 then 1
    else if volume_24h ≤ 50000 then 0.7
    else if volume_24h ≤ 200000 then 0.4
    else 0.1

/-! ### Trade rows and the timing-cluster score

A persisted trade row carries the columns the ingestion code binds.  Stores
are association lists keyed by the primary key (`id`), duplicates excluded
by the PRIMARY KEY constraint where a theorem needs it. -/

structure KalshiTradeRow where
  ticker : String
  market_title : String
  taker_side : String
  count : ℚ
  price : ℚ
  usd_value : ℚ
  timestamp : Int
  is_whale : Bool
  insider_score : ℚ
  category : String
deriving Repr, DecidableEq

/-- The `SELECT COUNT(*) ... WHERE ticker = ? AND is_whale = 1 AND timestamp
BETWEEN ? AND ?` query of `calculate_timing_cluster_score`, over the persisted
kalshi trades, with `window_seconds = 30 * 60`. -/
def timingWindowCount (db : List KalshiTradeRow) (market_id : String) (timestamp : Int) : Nat :=
  (db.filter (fun t =>
    t.ticker == market_id && t.is_whale &&
    decide (timestamp - 1800 ≤ t.timestamp) && decide (t.timestamp ≤ timestamp + 1800))).length

/-- The final bucketing shared by the code and the spec:
`1.0` for at least 3, `0.7` for 2, `0.4` for 1, else `0`. -/
def timingBucket (others : Nat) : ℚ :=
  if others ≥ 3 then 1
  else if others == 2 then 0.7
  else if others == 1 then 0.4
  else 0

/-- The function `calculate_timing_cluster_score` (src/app/insider.py, lines 135-176):
the in-window whale count with `max(0, count - 1)` applied (`Nat` subtraction
is Python's `max(0, count - 1)`), then bucketed. -/
def calculate_timing_cluster_score (db : List KalshiTradeRow) (market_id : String)
    (timestamp : Int) : ℚ :=
  timingBucket (timingWindowCount db market_id timestamp - 1)

/-- The timing sub-score as §4.4 / §8 of the spec describe it: the count of
*other* persisted whale trades on the same market within ±30 minutes,
excluding the trade itself.  At scoring time the trade under test is not yet
persisted (`fetch_kalshi_data` scores before it inserts), so every persisted
in-window whale trade is an "other". -/
def specTimingScore (db : List KalshiTradeRow) (market_id : String) (timestamp : Int) : ℚ :=
  timingBucket (timingWindowCount db market_id timestamp)

/-! ### Composite insider score (src/app/insider.py, lines 179-216) -/

/-- Python's `round(x, 1)`.  Modelled as rounding `10 x` to the nearest
integer; Python breaks exact ties to even, which no claim exercises. -/
def round1 (x : ℚ) : ℚ := (round (10 * x) : ℤ) / 10

structure ScoreBreakdown where
  insider_score : ℚ
  size_score : ℚ
  contrarian_score : ℚ
  event_score : ℚ
  liquidity_score : ℚ
  timing_score : ℚ
deriving Repr, DecidableEq

/-- The function `calculate_insider_score` (src/app/insider.py, lines 179-216).  The
timing sub-score reads the persisted trades, passed here as `db`. -/
def calculate_insider_score (db : List KalshiTradeRow) (platform : String)
    (usd_value threshold price : ℚ) (side market_title market_id : String)
    (timestamp : Int) (volume_24h : ℚ) : ScoreBreakdown :=
  let size_score := calculate_size_score usd_value threshold
  let contrarian_score := calculate_contrarian_score price side platform
  let event_score := calculate_event_score market_title
  let liquidity_score := calculate_liquidity_score volume_24h platform
  let timing_score := calculate_timing_cluster_score db market_id timestamp
  let total_score :=
    0.20 * size_score + 0.25 * contrarian_score + 0.15 * liquidity_score +
    0.20 * timing_score + 0.20 * event_score
  { insider_score := round1 (total_score * 100)
    size_score := round1 (size_score * 100)
    contrarian_score := round1 (contrarian_score * 100)
    event_score := round1 (event_score * 100)
    liquidity_score := round1 (liquidity_score * 100)
    timing_score := round1 (timing_score * 100) }

/-! ### The DDL of `src/app/database.py` versus the ingestion INSERTs

`SCHEMA` creates the trades tables with the column lists below.  The
per-trade INSERT statements in `fetch_kalshi_data` (src/app/kalshi.py,
lines 210-217) and `fetch_polymarket_data` (src/app/polymarket.py, lines
156-162) name the column lists below them.  SQLite raises
`OperationalError: table ... has no column named ...` when an INSERT names a
column the table lacks ("OR IGNORE" only suppresses constraint conflicts),
and the surrounding per-record `except` clause drops the record. -/

def kalshiTradesTableCols : List String :=
  ["id", "ticker", "market_title", "taker_side", "count", "price", "usd_value",
   "timestamp", "is_whale"]

def polymarketTradesTableCols : List String :=
  ["id", "market_id", "market_question", "wallet", "side", "size", "price",
   "timestamp", "is_whale"]

def kalshiTradeInsertCols : List String :=
  ["id", "ticker", "market_title", "taker_side", "count", "price", "usd_value",
   "timestamp", "is_whale", "insider_score", "category"]

def polymarketTradeInsertCols : List String :=
  ["id", "market_id", "market_question", "wallet", "side", "size", "price",
   "timestamp", "is_whale", "insider_score"]

/-- An INSERT prepares successfully iff every named column exists in the table. -/
def insertStatementOk (tableCols insertCols : List String) : Bool :=
  insertCols.all (fun c => tableCols.contains c)

/-- One per-record iteration of a trade loop against the DDL of
`database.py`: the row is appended when the INSERT prepares, and the
per-record exception handler drops it otherwise. -/
def perRecordInsert {α : Type} (tableCols insertCols : List String)
    (tbl : List α) (row : α) : List α :=
  if insertStatementOk tableCols insertCols then tbl ++ [row] else tbl

/-- One ingestion cycle: the per-record loop over the batch of parsed rows. -/
def ingestCycle {α : Type} (tableCols insertCols : List String)
    (tbl : List α) (rows : List α) : List α :=
  rows.foldl (perRecordInsert tableCols insertCols) tbl

/-- Any number of ingestion cycles against a store freshly created by
`init_db` (both trades tables start empty). -/
def ingestCycles {α : Type} (tableCols insertCols : List String)
    (cycles : List (List α)) : List α :=
  cycles.foldl (ingestCycle tableCols insertCols) []

/-! ### Deduplicating trade ingestion (the intended, column-compatible store)

`fetch_kalshi_data` checks `SELECT id FROM kalshi_trades WHERE id = ?` and
skips the record when the id is already present; otherwise it inserts
(`INSERT OR IGNORE`, `id` PRIMARY KEY).  This models that logic over a store
whose rows do carry the inserted columns. -/

def lookupById {α : Type} (db : List (String × α)) (id : String) : Option α :=
  (db.find? (fun p => p.1 == id)).map (fun p => p.2)

/-- The dedup-checked insert of one parsed kalshi trade
(src/app/kalshi.py, lines 164-217, with the INSERT succeeding). -/
def ingestKalshiTrade (db : List (String × KalshiTradeRow)) (id : String)
    (row : KalshiTradeRow) : List (String × KalshiTradeRow) :=
  match lookupById db id with
  | some _ => db
  | none => db ++ [(id, row)]

/-! ### Kalshi markets against the DDL (src/app/kalshi.py versus src/app/database.py)

The SCHEMA of `database.py` creates `kalshi_markets` with exactly the column
list below: it has no `category`, `result` or `settlement_time` column.  The
fetch-cycle market upsert (src/app/kalshi.py, lines 290-295) is an
`INSERT OR REPLACE` that names `category`; the settlement UPDATE (lines
458-463) sets `result` and `settlement_time`; and the settlement candidate
query (lines 426-431) filters on `m.result`.  None of these statements can
prepare against the real table: the upsert raises and the per-market handler
drops the write, while `check_settled_markets` raises at its candidate query
(no per-statement handler there) before reading or updating any row. -/

def kalshiMarketsTableCols : List String :=
  ["ticker", "title", "status", "yes_price", "no_price", "volume_24h", "volume_avg",
   "open_interest", "last_updated"]

def kalshiMarketUpsertCols : List String :=
  ["ticker", "title", "status", "yes_price", "no_price", "volume_24h", "volume_avg",
   "open_interest", "last_updated", "category"]

/-- The SET column list of the settlement UPDATE in `check_settled_markets`
(src/app/kalshi.py, lines 458-463). -/
def kalshiSettlementUpdateCols : List String := ["status", "result", "settlement_time"]

/-- Whether the settlement candidate query (`WHERE m.result IS NULL`) can
prepare at all: it references the `result` column of `kalshi_markets`.  When
it cannot, `check_settled_markets` raises OperationalError at the query and
the error propagates to its caller with no row read or written. -/
def settlementQueryPrepares : Bool := kalshiMarketsTableCols.contains "result"

/-- A row of `kalshi_markets` exactly as the SCHEMA declares it (the
`ticker` primary key is held separately as the association-list key). -/
structure KalshiMarketRow where
  title : String
  status : String
  yes_price : ℚ
  no_price : ℚ
  volume_24h : ℚ
  volume_avg : ℚ
  open_interest : ℚ
  last_updated : Int
deriving Repr, DecidableEq

/-- One `INSERT OR REPLACE` of a market row: when every named column exists,
the old row under the key is replaced by the new one; otherwise the
statement raises and the per-record handler drops the write, leaving the
store unchanged. -/
def perMarketReplace {α : Type} (tableCols insertCols : List String)
    (db : List (String × α)) (key : String) (row : α) : List (String × α) :=
  if insertStatementOk tableCols insertCols then
    (key, row) :: db.filter (fun p => ¬(p.1 == key))
  else db

/-- One market-processing cycle: the per-market loop over a batch of fetched
market rows. -/
def marketCycle {α : Type} (tableCols insertCols : List String)
    (db : List (String × α)) (rows : List (String × α)) : List (String × α) :=
  rows.foldl (fun d p => perMarketReplace tableCols insertCols d p.1 p.2) db

/-- Any number of market cycles against a store freshly created by
`init_db` (the markets table starts empty). -/
def marketCycles {α : Type} (tableCols insertCols : List String)
    (cycles : List (List (String × α))) : List (String × α) :=
  cycles.foldl (marketCycle tableCols insertCols) []

/-! ### Polymarket trade ingestion (src/app/polymarket.py, lines 101-162) -/

/-- A raw trade record from the Polymarket data API, with the fields
`fetch_polymarket_data` reads (present-field case; `.get` defaults are not
claim-relevant). -/
structure PolyRaw where
  transactionHash : String
  size : ℚ
  price : ℚ
  side : String
  outcome : String
  proxyWallet : String
  conditionId : String
  title : String
  timestamp : Int
deriving Repr, DecidableEq

/-- A row of `polymarket_trades` as the INSERT binds it. -/
structure PolyTradeRow where
  market_id : String
  market_question : String
  wallet : String
  side : String
  size : ℚ
  price : ℚ
  timestamp : Int
  is_whale : Bool
  insider_score : ℚ
deriving Repr, DecidableEq

/-- Python's `str.upper()` as a `String`. -/
def strUpper (s : String) : String := String.mk (upperChars s)

/-- The display side: the upper-cased side followed by the outcome label when
the outcome is non-empty, else the upper-cased side alone. -/
def polyDisplaySide (side outcome : String) : String :=
  if outcome != "" then strUpper side ++ " " ++ outcome else strUpper side

/-- The value `usd_value = size * price` (Polymarket price is already a probability). -/
def polyUsdValue (raw : PolyRaw) : ℚ := raw.size * raw.price

/-- The row the per-trade `INSERT OR IGNORE INTO polymarket_trades` binds
(src/app/polymarket.py, lines 156-162).  Note the `size` column receives
`usd_value`, not the parsed `size`; `insider_score` is the value computed
upstream (0 for non-whales). -/
def polyInsertRow (raw : PolyRaw) (threshold insider_score : ℚ) : PolyTradeRow :=
  { market_id := raw.conditionId
    market_question := raw.title
    wallet := raw.proxyWallet
    side := polyDisplaySide raw.side raw.outcome
    size := polyUsdValue raw
    price := raw.price
    timestamp := raw.timestamp
    is_whale := decide (polyUsdValue raw ≥ threshold)
    insider_score := insider_score }

/-- The dedup-checked processing of one raw Polymarket trade
(src/app/polymarket.py, lines 104-162): skip when `transactionHash` is
already stored; otherwise the `INSERT OR IGNORE` prepares only if every
named column exists — it names `insider_score`, which `polymarket_trades`
lacks, so against the real store it raises and the per-record handler drops
the record, leaving the table unchanged. -/
def ingestPolyTrade (db : List (String × PolyTradeRow)) (raw : PolyRaw)
    (threshold insider_score : ℚ) : List (String × PolyTradeRow) :=
  match lookupById db raw.transactionHash with
  | some _ => db
  | none =>
    if insertStatementOk polymarketTradesTableCols polymarketTradeInsertCols then
      db ++ [(raw.transactionHash, polyInsertRow raw threshold insider_score)]
    else db

/-! ### Polymarket market upsert (src/app/polymarket.py, lines 186-210) -/

structure PolyMarketRow where
  slug : String
  question : String
  volume_24h : ℚ
  volume_avg : ℚ
deriving Repr, DecidableEq

/-- The smoothing expression both fetchers write (src/app/kalshi.py,
line 287; src/app/polymarket.py, line 200):
`new_avg = (volume_24h + (row.volume_avg if row else 0)) / 2 if row else volume_24h`. -/
def newVolumeAvg (prev : Option ℚ) (volume_24h : ℚ) : ℚ :=
  match prev with
  | some a => (volume_24h + a) / 2
  | none => volume_24h

/-- The per-market upsert of `fetch_polymarket_data` (src/app/polymarket.py,
lines 186-210).  The markets block opens its own connection without setting
`db.row_factory` (unlike the trades block above it), so the prior-row SELECT
yields a plain tuple; when a prior row exists, indexing that tuple with the
column name raises TypeError, the bare `except` drops the record, and the
store is unchanged.  Only the first-seen branch reaches the
`INSERT OR REPLACE` — whose column list matches the `polymarket_markets`
DDL exactly — storing `volume_avg = volume_24h`. -/
def upsertPolyMarket (db : List (String × PolyMarketRow)) (market_id slug question : String)
    (volume_24h : ℚ) : List (String × PolyMarketRow) :=
  match lookupById db market_id with
  | some _ => db
  | none =>
    (market_id,
      { slug := slug, question := question, volume_24h := volume_24h,
        volume_avg := volume_24h }) :: db.filter (fun p => ¬(p.1 == market_id))

/-! ### Backtest aggregation (src/app/kalshi.py, lines 480-546) -/

/-- One row of the inner join of whale trades against markets with a
non-null result (`t.*, m.result`). -/
structure SettledWhaleTrade where
  taker_side : String
  price : ℚ
  usd_value : ℚ
  result : String
deriving Repr, DecidableEq

structure PerfAcc where
  wins : Nat
  losses : Nat
  total_expected : ℚ
  total_pnl : ℚ
deriving Repr, DecidableEq

/-- The loop body of `get_kalshi_whale_performance` (src/app/kalshi.py,
lines 506-525): `won = side == result`; `expected_prob = price / 100`;
`contracts = usd / (price / 100) if price > 0 else 0`;
`pnl = contracts * (100 - price) / 100` on a win, `-usd` on a loss. -/
def perfStep (acc : PerfAcc) (t : SettledWhaleTrade) : PerfAcc :=
  let won := t.taker_side == t.result
  let expected_prob := t.price / 100
  let contracts : ℚ := if t.price > 0 then t.usd_value / (t.price / 100) else 0
  let pnl : ℚ := if won then contracts * (100 - t.price) / 100 else -t.usd_value
  { wins := acc.wins + (if won then 1 else 0)
    losses := acc.losses + (if won then 0 else 1)
    total_expected := acc.total_expected + expected_prob
    total_pnl := acc.total_pnl + pnl }

/-- The aggregation over all settled whale trades. -/
def kalshiWhalePerformance (trades : List SettledWhaleTrade) : PerfAcc :=
  trades.foldl perfStep { wins := 0, losses := 0, total_expected := 0, total_pnl := 0 }

/-- The per-trade contract count as §4.6 of the spec words it:
`usd_value / (price/100)` when the price is positive, zero contracts at
price 0 rather than an exception. -/
def specContracts (t : SettledWhaleTrade) : ℚ :=
  if t.price > 0 then t.usd_value / (t.price / 100) else 0

/-- The per-trade realized P/L as §4.6 of the spec words it:
`contracts × (100 - price)/100` when the trade's side equals the market's
result, else `-usd_value`. -/
def specRealizedPnl (t : SettledWhaleTrade) : ℚ :=
  if t.taker_side = t.result then specContracts t * (100 - t.price) / 100 else -t.usd_value

/-! ## Theorems -/

/-- C3: the claim as stated is false at its own example: for threshold 500
and usd_value 2500 (ratio exactly 5) the code's size score is
`0.3 + 3 * 0.167 = 0.801`, not `0.8`. -/
theorem C3_counterexample :
    calculate_size_score 2500 500 = 801 / 1000 ∧ (801 / 1000 : ℚ) ≠ 8 / 10 := by
  constructor
  · norm_num [calculate_size_score]
  · norm_num

/-- C3 (amended): the size sub-score is 0 for ratio ≤ 1, 0.3 for ratio in
(1,2], `0.3 + (ratio-2)·0.167` over (2,5] — reaching 0.801, not 0.8, at
ratio 5 — `0.8 + (ratio-5)·0.04` over (5,10] reaching 1.0 at 10, and 1.0
above 10. -/
theorem C3_size_score_piecewise (usd thr : ℚ) :
    (usd / thr ≤ 1 → calculate_size_score usd thr = 0) ∧
    (1 < usd / thr → usd / thr ≤ 2 → calculate_size_score usd thr = 0.3) ∧
    (2 < usd / thr → usd / thr ≤ 5 →
      calculate_size_score usd thr = 0.3 + (usd / thr - 2) * 0.167) ∧
    (usd / thr = 5 → calculate_size_score usd thr = 0.801) ∧
    (5 < usd / thr → usd / thr ≤ 10 →
      calculate_size_score usd thr = 0.8 + (usd / thr - 5) * 0.04) ∧
    (usd / thr = 10 → calculate_size_score usd thr = 1) ∧
    (10 < usd / thr → calculate_size_score usd thr = 1) := by
  have e : calculate_size_score usd thr =
      (if usd / thr ≤ 1 then 0
       else if usd / thr ≤ 2 then 0.3
       else if usd / thr ≤ 5 then 0.3 + (usd / thr - 2) * 0.167
       else if usd / thr ≤ 10 then 0.8 + (usd / thr - 5) * 0.04
       else 1) := rfl
  refine ⟨?_, ?_, ?_, ?_, ?_, ?_, ?_⟩
  · intro h; rw [e, if_pos h]
  · intro h1 h2; rw [e, if_neg (by linarith), if_pos h2]
  · intro h1 h2; rw [e, if_neg (by linarith), if_neg (by linarith), if_pos h2]
  · intro h; rw [e, h]; norm_num
  · intro h1 h2
    rw [e, if_neg (by linarith), if_neg (by linarith), if_neg (by linarith), if_pos h2]
  · intro h; rw [e, h]; norm_num
  · intro h
    rw [e, if_neg (by linarith), if_neg (by linarith), if_neg (by linarith),
      if_neg (by linarith)]

/-- C3 witness: the amended statement evaluated on the claim's example. -/
theorem C3_witness :
    2 < (2500 : ℚ) / 500 ∧ (2500 : ℚ) / 500 ≤ 5 ∧
    calculate_size_score 2500 500 = 0.3 + ((2500 : ℚ) / 500 - 2) * 0.167 :=
  ⟨by norm_num, by norm_num,
    (C3_size_score_piecewise 2500 500).2.2.1 (by norm_num) (by norm_num)⟩

/-- C7: `detect_category` is total — its value is always one of the five
category strings — and order-sensitive: any input whose title contains a
sports keyword or whose identifier contains a sports-league token is
categorized `sports` even when the identifier also matches the crypto
tokens, because sports is tested first. -/
theorem C7_detect_category_total_sports_first :
    (∀ ticker title : String,
      detect_category ticker title ∈ ["sports", "crypto", "indices", "politics", "other"]) ∧
    (∀ ticker title : String,
      (sportsTitleHit title || sportsTickerHit ticker) = true →
      cryptoTickerHit ticker = true →
      detect_category ticker title = "sports") := by
  constructor
  · intro ticker title
    unfold detect_category
    split_ifs <;> simp
  · intro ticker title hsports _
    unfold detect_category
    simp only [Bool.or_eq_true] at hsports
    rcases hsports with h | h
    · simp [h]
    · by_cases h' : sportsTitleHit title <;> simp [h, h']

/-- C7 witness: a ticker containing BTC with a title containing "vs" is
categorized `sports`, not `crypto`. -/
theorem C7_witness :
    ((sportsTitleHit "Lakers vs Celtics" || sportsTickerHit "BTCUSD") = true ∧
      cryptoTickerHit "BTCUSD" = true) ∧
    detect_category "BTCUSD" "Lakers vs Celtics" = "sports" :=
  ⟨⟨by decide, by decide⟩,
    C7_detect_category_total_sports_first.2 "BTCUSD" "Lakers vs Celtics"
      (by decide) (by decide)⟩

/-- A per-record insert whose statement does not prepare drops the record. -/
theorem perRecordInsert_of_bad {α : Type} {tableCols insertCols : List String}
    (h : insertStatementOk tableCols insertCols = false) (tbl : List α) (row : α) :
    perRecordInsert tableCols insertCols tbl row = tbl := by
  simp [perRecordInsert, h]

/-- A whole cycle of unpreparable inserts leaves the table unchanged. -/
theorem ingestCycle_of_bad {α : Type} {tableCols insertCols : List String}
    (h : insertStatementOk tableCols insertCols = false) (tbl : List α)
    (rows : List α) : ingestCycle tableCols insertCols tbl rows = tbl := by
  induction rows generalizing tbl with
  | nil => rfl
  | cons r rest ih =>
    simp only [ingestCycle, List.foldl_cons] at *
    rw [perRecordInsert_of_bad h, ih]

/-- Any number of such cycles from a fresh store leaves the table empty. -/
theorem ingestCycles_of_bad {α : Type} {tableCols insertCols : List String}
    (h : insertStatementOk tableCols insertCols = false)
    (cycles : List (List α)) : ingestCycles tableCols insertCols cycles = [] := by
  induction cycles with
  | nil => rfl
  | cons c rest ih =>
    simp only [ingestCycles, List.foldl_cons] at *
    rw [ingestCycle_of_bad h, ih]

/-- C1: the DDL of `init_db` gives `kalshi_trades` no `insider_score` or
`category` column and `polymarket_trades` no `insider_score` column, yet the
per-trade INSERTs of `fetch_kalshi_data` and `fetch_polymarket_data` name
those columns; every record's INSERT therefore raises, is caught by the
per-record handler, and is dropped — after any number of ingestion cycles
against a freshly initialized store both trades tables hold zero rows. -/
theorem C1_trade_inserts_never_land (kalshiCycles : List (List KalshiTradeRow))
    (polyCycles : List (List PolyTradeRow)) :
    ingestCycles kalshiTradesTableCols kalshiTradeInsertCols kalshiCycles = [] ∧
    ingestCycles polymarketTradesTableCols polymarketTradeInsertCols polyCycles = [] ∧
    ("insider_score" ∈ kalshiTradeInsertCols ∧ "insider_score" ∉ kalshiTradesTableCols) ∧
    ("category" ∈ kalshiTradeInsertCols ∧ "category" ∉ kalshiTradesTableCols) ∧
    ("insider_score" ∈ polymarketTradeInsertCols ∧
      "insider_score" ∉ polymarketTradesTableCols) := by
  refine ⟨ingestCycles_of_bad (by decide) _, ingestCycles_of_bad (by decide) _,
    by decide, by decide, by decide⟩

/-- A persisted whale trade on market `KXFED` used to exercise the timing
cluster score. -/
def whaleAt (ts : Int) : KalshiTradeRow :=
  { ticker := "KXFED", market_title := "Fed chair announce", taker_side := "yes",
    count := 6000, price := 10, usd_value := 600, timestamp := ts, is_whale := true,
    insider_score := 0, category := "politics" }

/-- C2: `fetch_kalshi_data` scores a trade before inserting it, so the
whale-count query never includes the trade itself, yet
`calculate_timing_cluster_score` still subtracts one.  Against a store
holding exactly 1 other in-window whale trade the code returns 0 where the
spec says 0.4, and against 3 others it returns 0.7 where the spec says
1.0. -/
theorem C2_timing_score_off_by_one :
    calculate_timing_cluster_score [whaleAt 1000] "KXFED" 1200 = 0 ∧
    specTimingScore [whaleAt 1000] "KXFED" 1200 = 0.4 ∧
    calculate_timing_cluster_score [whaleAt 1000, whaleAt 1100, whaleAt 1300] "KXFED" 1200 = 0.7 ∧
    specTimingScore [whaleAt 1000, whaleAt 1100, whaleAt 1300] "KXFED" 1200 = 1 := by
  have h1 : timingWindowCount [whaleAt 1000] "KXFED" 1200 = 1 := by decide
  have h3 : timingWindowCount [whaleAt 1000, whaleAt 1100, whaleAt 1300] "KXFED" 1200 = 3 := by
    decide
  refine ⟨?_, ?_, ?_, ?_⟩ <;>
    simp [calculate_timing_cluster_score, specTimingScore, h1, h3, timingBucket]

/-- A parsed kalshi trade used to exercise duplicate ingestion. -/
def sampleKalshiTrade : KalshiTradeRow :=
  { ticker := "KXNBA", market_title := "Lakers game winner", taker_side := "yes",
    count := 100, price := 60, usd_value := 60, timestamp := 1700000000,
    is_whale := false, insider_score := 0, category := "sports" }

/-- C6: against the store `init_db` actually creates, ingesting the same
record twice leaves the count at 0 — each attempt's INSERT raises on the
missing columns and is dropped — not at 1 as the claim states.  The
dedup-then-insert logic itself (modelled over a column-compatible store) is
what the claim describes: the second ingestion is a no-op, the count ends at
exactly 1, and the stored row is unchanged. -/
theorem C6_duplicate_ingest_eval :
    (ingestCycle kalshiTradesTableCols kalshiTradeInsertCols
      (ingestCycle kalshiTradesTableCols kalshiTradeInsertCols [] [sampleKalshiTrade])
      [sampleKalshiTrade]).length = 0 ∧
    (ingestKalshiTrade (ingestKalshiTrade [] "trade-1" sampleKalshiTrade)
      "trade-1" sampleKalshiTrade).length = 1 ∧
    lookupById (ingestKalshiTrade (ingestKalshiTrade [] "trade-1" sampleKalshiTrade)
      "trade-1" sampleKalshiTrade) "trade-1" = some sampleKalshiTrade := by
  refine ⟨?_, ?_, ?_⟩
  · rw [ingestCycle_of_bad (by decide), ingestCycle_of_bad (by decide)]
    rfl
  · rfl
  · rfl

/-- A raw Polymarket trade with `size = 10` and `price = 0.5`. -/
def samplePolyRaw : PolyRaw :=
  { transactionHash := "0xabc", size := 10, price := 1 / 2, side := "buy",
    outcome := "Yes", proxyWallet := "0xwallet", conditionId := "cond-1",
    title := "Will X happen before the deadline?", timestamp := 1700000500 }

/-- C5: the claim as stated is false: against the store `init_db` creates,
the sample record's INSERT raises on the missing `insider_score` column and
is dropped — nothing is written, so no read-back of the trade exists, let
alone one preserving every field; and the row the INSERT binds would carry
`usd_value = 5` in the `size` column, not the parsed size 10. -/
theorem C5_counterexample :
    ingestPolyTrade [] samplePolyRaw 25000 0 = [] ∧
    lookupById (ingestPolyTrade [] samplePolyRaw 25000 0) samplePolyRaw.transactionHash =
      none ∧
    (polyInsertRow samplePolyRaw 25000 0).size = 5 ∧
    samplePolyRaw.size = 10 ∧ ((5 : ℚ) ≠ 10) := by
  have hok : insertStatementOk polymarketTradesTableCols polymarketTradeInsertCols = false :=
    by decide
  refine ⟨?_, ?_, ?_, rfl, by norm_num⟩
  · simp [ingestPolyTrade, lookupById, hok]
  · simp [ingestPolyTrade, lookupById, hok]
  · show polyUsdValue samplePolyRaw = 5
    norm_num [polyUsdValue, samplePolyRaw]

/-- C5 (amended): no raw trade record is ever persisted, so the claimed
round trip never occurs: every per-trade INSERT names `insider_score`,
missing from `polymarket_trades`, raises, and is dropped, leaving the store
unchanged; and the values the INSERT binds store
`usd_value = size × normalized price` in the `size` column — not the parsed
size — while every other bound field matches the canonical parse exactly. -/
theorem C5_no_roundtrip_amended (db : List (String × PolyTradeRow)) (raw : PolyRaw)
    (threshold score : ℚ) :
    ingestPolyTrade db raw threshold score = db ∧
    polyInsertRow raw threshold score =
      { market_id := raw.conditionId
        market_question := raw.title
        wallet := raw.proxyWallet
        side := polyDisplaySide raw.side raw.outcome
        size := raw.size * raw.price
        price := raw.price
        timestamp := raw.timestamp
        is_whale := decide (raw.size * raw.price ≥ threshold)
        insider_score := score } := by
  have hok : insertStatementOk polymarketTradesTableCols polymarketTradeInsertCols = false :=
    by decide
  refine ⟨?_, rfl⟩
  unfold ingestPolyTrade
  cases lookupById db raw.transactionHash with
  | some _ => rfl
  | none => simp [hok]

/-- A market replace whose statement does not prepare drops the write. -/
theorem perMarketReplace_of_bad {α : Type} {tableCols insertCols : List String}
    (h : insertStatementOk tableCols insertCols = false) (db : List (String × α))
    (key : String) (row : α) : perMarketReplace tableCols insertCols db key row = db := by
  simp [perMarketReplace, h]

/-- A whole cycle of unpreparable market replaces leaves the table unchanged. -/
theorem marketCycle_of_bad {α : Type} {tableCols insertCols : List String}
    (h : insertStatementOk tableCols insertCols = false) (db : List (String × α))
    (rows : List (String × α)) : marketCycle tableCols insertCols db rows = db := by
  induction rows generalizing db with
  | nil => rfl
  | cons r rest ih =>
    simp only [marketCycle, List.foldl_cons] at *
    rw [perMarketReplace_of_bad h, ih]

/-- Any number of such cycles from a fresh store leaves the table empty. -/
theorem marketCycles_of_bad {α : Type} {tableCols insertCols : List String}
    (h : insertStatementOk tableCols insertCols = false)
    (cycles : List (List (String × α))) : marketCycles tableCols insertCols cycles = [] := by
  induction cycles with
  | nil => rfl
  | cons c rest ih =>
    simp only [marketCycles, List.foldl_cons] at *
    rw [marketCycle_of_bad h, ih]

/-- C4: the settlement life-cycle the claim presupposes never runs.
`kalshi_markets` as created by `init_db` has no `result`, `settlement_time`
or `category` column, so every fetch-cycle market upsert raises on
`category` and is dropped — after any number of cycles the table is empty
and no Market with a non-null result ever exists; the settlement candidate
query cannot prepare, so `check_settled_markets` raises before reading or
updating any row; and the settlement UPDATE names the two missing columns. -/
theorem C4_settlement_result_unreachable
    (cycles : List (List (String × KalshiMarketRow))) :
    marketCycles kalshiMarketsTableCols kalshiMarketUpsertCols cycles = [] ∧
    ("category" ∈ kalshiMarketUpsertCols ∧ "category" ∉ kalshiMarketsTableCols) ∧
    settlementQueryPrepares = false ∧
    ("result" ∈ kalshiSettlementUpdateCols ∧ "result" ∉ kalshiMarketsTableCols) ∧
    ("settlement_time" ∈ kalshiSettlementUpdateCols ∧
      "settlement_time" ∉ kalshiMarketsTableCols) :=
  ⟨marketCycles_of_bad (by decide) _, by decide, by decide, by decide, by decide⟩

/-- One aggregation step adds exactly the spec's realized P/L. -/
theorem perfStep_total_pnl (acc : PerfAcc) (t : SettledWhaleTrade) :
    (perfStep acc t).total_pnl = acc.total_pnl + specRealizedPnl t := by
  unfold perfStep specRealizedPnl specContracts
  by_cases h : t.taker_side = t.result <;>
    simp [h]

/-- Folding the backtest loop accumulates the spec's P/L sum. -/
theorem foldl_perfStep_pnl (trades : List SettledWhaleTrade) (acc : PerfAcc) :
    (trades.foldl perfStep acc).total_pnl =
      acc.total_pnl + (trades.map specRealizedPnl).sum := by
  induction trades generalizing acc with
  | nil => simp
  | cons t tl ih =>
    simp only [List.foldl_cons, List.map_cons, List.sum_cons]
    rw [ih, perfStep_total_pnl]
    ring

/-- C8: in the backtest aggregation, every trade contributes
`contracts × (100−price)/100` when its side equals the market result and
`−usd_value` otherwise, where `contracts = usd_value/(price/100)` for a
positive price and `0` at price 0 — the zero-price case yields zero
contracts, not an exception. -/
theorem C8_backtest_contracts_pnl (trades : List SettledWhaleTrade) :
    (kalshiWhalePerformance trades).total_pnl = (trades.map specRealizedPnl).sum ∧
    (∀ t : SettledWhaleTrade,
      specContracts t = (if t.price > 0 then t.usd_value / (t.price / 100) else 0) ∧
      (t.price = 0 → specContracts t = 0) ∧
      specRealizedPnl t =
        (if t.taker_side = t.result then specContracts t * (100 - t.price) / 100
         else -t.usd_value)) := by
  constructor
  · rw [kalshiWhalePerformance, foldl_perfStep_pnl]
    simp
  · intro t
    refine ⟨rfl, ?_, rfl⟩
    intro h0
    simp [specContracts, h0]

/-- A settled whale trade that lost at price 0. -/
def zeroPriceTrade : SettledWhaleTrade :=
  { taker_side := "yes", price := 0, usd_value := 100, result := "yes" }

/-- C8 witness: the theorem applied to a two-trade cohort, with the
zero-price clause discharged on a price-0 trade. -/
theorem C8_witness :
    (kalshiWhalePerformance [zeroPriceTrade,
        { taker_side := "no", price := 70, usd_value := 100, result := "yes" }]).total_pnl =
      ([zeroPriceTrade,
        { taker_side := "no", price := 70, usd_value := 100, result := "yes" }].map
          specRealizedPnl).sum ∧
    specContracts zeroPriceTrade = 0 :=
  ⟨(C8_backtest_contracts_pnl _).1,
    ((C8_backtest_contracts_pnl [zeroPriceTrade]).2 zeroPriceTrade).2.1 rfl⟩

/-- C9: the smoothing branch of the claim never executes on either venue.
Kalshi: every market upsert raises on the missing `category` column and is
dropped, so nothing is ever stored.  Polymarket: the first-seen upsert
stores `volume_avg = volume_24h` (the claim's first-sighting half), but once
a row exists the row-factory-less tuple read raises TypeError and the bare
`except` drops the upsert, so after volumes 100 then 300 the stored
`volume_avg` is still 100 where the claim requires `(300 + 100)/2 = 200` —
even though the smoothing expression the code writes, `newVolumeAvg`, is
exactly the claim's rule. -/
theorem C9_smoothing_branch_never_runs
    (cycles : List (List (String × KalshiMarketRow))) (prev v : ℚ) :
    marketCycles kalshiMarketsTableCols kalshiMarketUpsertCols cycles = [] ∧
    lookupById (upsertPolyMarket [] "m1" "s" "q" 100) "m1" =
      some { slug := "s", question := "q", volume_24h := 100, volume_avg := 100 } ∧
    lookupById (upsertPolyMarket (upsertPolyMarket [] "m1" "s" "q" 100)
        "m1" "s" "q" 300) "m1" =
      some { slug := "s", question := "q", volume_24h := 100, volume_avg := 100 } ∧
    newVolumeAvg (some 100) 300 = 200 ∧ ((100 : ℚ) ≠ 200) ∧
    newVolumeAvg (some prev) v = (v + prev) / 2 ∧ newVolumeAvg none v = v := by
  refine ⟨marketCycles_of_bad (by decide) _, rfl, rfl, ?_, by norm_num, rfl, rfl⟩
  show ((300 : ℚ) + 100) / 2 = 200
  norm_num

/-- The size sub-score always lies in [0,1]. -/
theorem size_score_range (usd thr : ℚ) :
    0 ≤ calculate_size_score usd thr ∧ calculate_size_score usd thr ≤ 1 := by
  simp only [calculate_size_score]
  split_ifs <;> constructor <;> nlinarith

/-- The contrarian sub-score always lies in [0,1]. -/
theorem contrarian_score_range (price : ℚ) (side platform : String) :
    0 ≤ calculate_contrarian_score price side platform ∧
    calculate_contrarian_score price side platform ≤ 1 := by
  simp only [calculate_contrarian_score]
  split_ifs <;> norm_num

/-- The event sub-score always lies in [0,1]. -/
theorem event_score_range (title : String) :
    0 ≤ calculate_event_score title ∧ calculate_event_score title ≤ 1 := by
  simp only [calculate_event_score]
  split_ifs <;> norm_num

/-- The liquidity sub-score always lies in [0,1]. -/
theorem liquidity_score_range (vol : ℚ) (platform : String) :
    0 ≤ calculate_liquidity_score vol platform ∧
    calculate_liquidity_score vol platform ≤ 1 := by
  simp only [calculate_liquidity_score]
  split_ifs <;> norm_num

/-- The timing sub-score always lies in [0,1]. -/
theorem timing_score_range (db : List KalshiTradeRow) (mid : String) (ts : Int) :
    0 ≤ calculate_timing_cluster_score db mid ts ∧
    calculate_timing_cluster_score db mid ts ≤ 1 := by
  simp only [calculate_timing_cluster_score, timingBucket]
  split_ifs <;> norm_num

/-- Rounding to one decimal keeps a value of [0,100] inside [0,100]. -/
theorem round1_bounds (x : ℚ) (h0 : 0 ≤ x) (h1 : x ≤ 100) :
    0 ≤ round1 x ∧ round1 x ≤ 100 := by
  unfold round1
  have hlb : (0 : ℤ) ≤ round (10 * x) := by
    rw [round_eq]
    apply Int.floor_nonneg.mpr
    linarith
  have hub : round (10 * x) ≤ 1000 := by
    rw [round_eq]
    calc ⌊(10 * x + 1 / 2 : ℚ)⌋ ≤ ⌊(2001 / 2 : ℚ)⌋ := Int.floor_le_floor (by linarith)
    _ = 1000 := by
        apply Int.floor_eq_iff.mpr
        constructor <;> norm_num
  constructor
  · apply div_nonneg _ (by norm_num : (0 : ℚ) ≤ 10)
    exact_mod_cast hlb
  · rw [div_le_iff₀ (by norm_num : (0 : ℚ) < 10)]
    have hc : ((round (10 * x) : ℤ) : ℚ) ≤ 1000 := by exact_mod_cast hub
    linarith

/-- C10: for every input with a positive whale threshold, the composite
insider score and every sub-score in the breakdown lie in [0,100], each
underlying sub-score function lies in [0,1] before the ×100 scaling, and the
composite is the fixed-weight sum
`0.20·size + 0.25·contrarian + 0.15·liquidity + 0.20·timing + 0.20·event`
scaled to [0,100] and rounded to one decimal. -/
theorem C10_insider_score_bounds (db : List KalshiTradeRow) (platform : String)
    (usd thr price : ℚ) (side title mid : String) (ts : Int) (vol : ℚ)
    (hthr : 0 < thr) :
    (0 ≤ (calculate_insider_score db platform usd thr price side title mid ts vol).insider_score ∧
      (calculate_insider_score db platform usd thr price side title mid ts vol).insider_score ≤ 100) ∧
    (0 ≤ (calculate_insider_score db platform usd thr price side title mid ts vol).size_score ∧
      (calculate_insider_score db platform usd thr price side title mid ts vol).size_score ≤ 100) ∧
    (0 ≤ (calculate_insider_score db platform usd thr price side title mid ts vol).contrarian_score ∧
      (calculate_insider_score db platform usd thr price side title mid ts vol).contrarian_score ≤ 100) ∧
    (0 ≤ (calculate_insider_score db platform usd thr price side title mid ts vol).event_score ∧
      (calculate_insider_score db platform usd thr price side title mid ts vol).event_score ≤ 100) ∧
    (0 ≤ (calculate_insider_score db platform usd thr price side title mid ts vol).liquidity_score ∧
      (calculate_insider_score db platform usd thr price side title mid ts vol).liquidity_score ≤ 100) ∧
    (0 ≤ (calculate_insider_score db platform usd thr price side title mid ts vol).timing_score ∧
      (calculate_insider_score db platform usd thr price side title mid ts vol).timing_score ≤ 100) ∧
    (0 ≤ calculate_size_score usd thr ∧ calculate_size_score usd thr ≤ 1) ∧
    (0 ≤ calculate_contrarian_score price side platform ∧
      calculate_contrarian_score price side platform ≤ 1) ∧
    (0 ≤ calculate_event_score title ∧ calculate_event_score title ≤ 1) ∧
    (0 ≤ calculate_liquidity_score vol platform ∧ calculate_liquidity_score vol platform ≤ 1) ∧
    (0 ≤ calculate_timing_cluster_score db mid ts ∧
      calculate_timing_cluster_score db mid ts ≤ 1) ∧
    (calculate_insider_score db platform usd thr price side title mid ts vol).insider_score =
      round1 ((0.20 * calculate_size_score usd thr +
        0.25 * calculate_contrarian_score price side platform +
        0.15 * calculate_liquidity_score vol platform +
        0.20 * calculate_timing_cluster_score db mid ts +
        0.20 * calculate_event_score title) * 100) := by
  have hs := size_score_range usd thr
  have hc := contrarian_score_range price side platform
  have he := event_score_range title
  have hl := liquidity_score_range vol platform
  have ht := timing_score_range db mid ts
  refine ⟨?_, ?_, ?_, ?_, ?_, ?_, hs, hc, he, hl, ht, rfl⟩
  · show 0 ≤ round1 ((0.20 * calculate_size_score usd thr +
        0.25 * calculate_contrarian_score price side platform +
        0.15 * calculate_liquidity_score vol platform +
        0.20 * calculate_timing_cluster_score db mid ts +
        0.20 * calculate_event_score title) * 100) ∧ _
    exact round1_bounds _ (by nlinarith [hs.1, hc.1, he.1, hl.1, ht.1])
      (by nlinarith [hs.2, hc.2, he.2, hl.2, ht.2])
  · exact round1_bounds _ (by nlinarith [hs.1]) (by nlinarith [hs.2])
  · exact round1_bounds _ (by nlinarith [hc.1]) (by nlinarith [hc.2])
  · exact round1_bounds _ (by nlinarith [he.1]) (by nlinarith [he.2])
  · exact round1_bounds _ (by nlinarith [hl.1]) (by nlinarith [hl.2])
  · exact round1_bounds _ (by nlinarith [ht.1]) (by nlinarith [ht.2])

/-- C10 witness: the bounds theorem applied at a concrete whale trade with
the default kalshi threshold 500. -/
theorem C10_witness :
    0 < (500 : ℚ) ∧
    (0 ≤ (calculate_insider_score [] "kalshi" 2500 500 10 "yes"
        "Fed court ruling before the deadline" "KXFED" 1000 100).insider_score ∧
      (calculate_insider_score [] "kalshi" 2500 500 10 "yes"
        "Fed court ruling before the deadline" "KXFED" 1000 100).insider_score ≤ 100) :=
  ⟨by norm_num,
    (C10_insider_score_bounds [] "kalshi" 2500 500 10 "yes"
      "Fed court ruling before the deadline" "KXFED" 1000 100 (by norm_num)).1⟩

end WhaleTracker
